import Mathlib

/-!
Shallow embedding of the MSSQL-MCP-API-Gateway query-safety layer.

Sources embedded:
  * `src/middleware/validator.js` (src/unnamed/part_001): `validateQuery`,
    `validateTableName`, `validateDatabaseName`, `validateStoredProcedureName`.
  * `src/db-connector.js`: the `allowedDatabases` whitelist built from
    `ALLOWED_DATABASES` and the throwing `validateDatabase` check, plus the
    `executeQuery` choke point.
  * `src/routes/query.js`: the ad-hoc query handler (POST
    /databases/:database/query) with its TOP-1000 rewrite, and the
    table-data handler (POST /databases/:database/tables/:table/data) with
    its limit clamping and column-projection filter.

Strings are modelled as their character lists (`String.data`); JavaScript
regular expressions are modelled character by character.  JS `\s`, `\w` and
case mapping are modelled on ASCII, which covers every character the
validators accept and every pattern character the source uses.
-/

namespace MSSQLGateway

/-- JS `\s` (whitespace), restricted to its ASCII members: space, tab,
newline, vertical tab (11), form feed (12), carriage return. -/
def isSpaceJS (c : Char) : Bool :=
  c == ' ' || c == '\t' || c == '\n' || c == Char.ofNat 11 || c == Char.ofNat 12 || c == '\r'

/-- JS regex word character `\w` = `[A-Za-z0-9_]`, as used by `\b`. -/
def isWordChar (c : Char) : Bool :=
  c.isAlpha || c.isDigit || c == '_'

/-- JS `String.prototype.toUpperCase` on a character list (ASCII). -/
def toUpperL (s : List Char) : List Char := s.map Char.toUpper

/-- JS `String.prototype.toLowerCase` (ASCII). -/
def toLowerS (s : String) : String := ⟨s.data.map Char.toLower⟩

/-- JS `String.prototype.trim` on a character list. -/
def trimJS (s : List Char) : List Char :=
  ((s.dropWhile isSpaceJS).reverse.dropWhile isSpaceJS).reverse

/-- JS `String.prototype.trim`. -/
def trimString (s : String) : String := ⟨trimJS s.data⟩

/-- Case-insensitive prefix test: does `pat` match at the head of `s`
(comparing upper-cased characters)?  Models a case-insensitive literal
regex match attempt at one position. -/
def isPrefixCI : List Char → List Char → Bool
  | [], _ => true
  | _ :: _, [] => false
  | k :: ks, c :: cs => (k.toUpper == c.toUpper) && isPrefixCI ks cs

/-- Case-insensitive substring test; with an upper-cased needle and haystack
it models JS `String.prototype.includes`. -/
def containsSub (pat : List Char) : List Char → Bool
  | [] => pat.isEmpty
  | c :: cs => isPrefixCI pat (c :: cs) || containsSub pat cs

/-- Does `kw` match at the head of `s` with a word boundary after it?
(`kw` consists of word characters only, as every blocked keyword does.) -/
def wordMatchHere (kw s : List Char) : Bool :=
  isPrefixCI kw s &&
    (match s.drop kw.length with
     | [] => true
     | c :: _ => !(isWordChar c))

/-- Scan of `s` for a whole-word occurrence of `kw`; `prevIsWord` says
whether the character before the current position is a word character. -/
def containsWordAux (kw : List Char) : Bool → List Char → Bool
  | _, [] => false
  | prevIsWord, c :: cs =>
      ((!prevIsWord) && wordMatchHere kw (c :: cs)) || containsWordAux kw (isWordChar c) cs

/-- JS `new RegExp ++ backslash-b ++ kw ++ backslash-b, i ++ .test(s)` for a keyword
`kw` made of word characters: `kw` occurs in `s` as a whole word,
case-insensitively. -/
def containsWord (kw s : List Char) : Bool := containsWordAux kw false s

/-- Drop a maximal run of JS whitespace. -/
def skipSpaces : List Char → List Char
  | [] => []
  | c :: cs => if isSpaceJS c then skipSpaces cs else c :: cs

/-- One element of a dangerous-pattern regex: a case-insensitive literal,
`\s*`, or `\s+`.  Every pattern in the source is a sequence of these. -/
inductive Pat where
  | lit (s : String)
  | ws0
  | ws1
deriving DecidableEq, Repr

/-- Match a pattern sequence at the head of `s`.  Each literal of the source
patterns begins with a non-space character, so matching `\s*`/`\s+`
greedily is equivalent to the regex semantics. -/
def matchSeqAt : List Pat → List Char → Bool
  | [], _ => true
  | Pat.lit l :: ps, s => isPrefixCI l.data s && matchSeqAt ps (s.drop l.data.length)
  | Pat.ws0 :: ps, s => matchSeqAt ps (skipSpaces s)
  | Pat.ws1 :: ps, s =>
      match s with
      | [] => false
      | c :: cs => isSpaceJS c && matchSeqAt ps (skipSpaces cs)

/-- JS `RegExp.prototype.test`: the pattern sequence matches somewhere in `s`. -/
def containsPat (ps : List Pat) : List Char → Bool
  | [] => false
  | c :: cs => matchSeqAt ps (c :: cs) || containsPat ps cs

/-- The `{valid: true} | {valid: false, error}` objects every validator in
`src/middleware/validator.js` returns. -/
inductive ValidationResult where
  | valid : ValidationResult
  | invalid (error : String) : ValidationResult
deriving DecidableEq, Repr

/-- The `valid` tag of a `ValidationResult`. -/
def ValidationResult.isValid : ValidationResult → Bool
  | .valid => true
  | .invalid _ => false

/-- `dangerousKeywords` of `validateQuery`, in source order. -/
def dangerousKeywords : List String :=
  ["INSERT", "UPDATE", "DELETE", "DROP", "CREATE", "ALTER", "EXEC", "EXECUTE",
   "SP_", "XP_", "TRUNCATE", "MERGE", "GRANT", "REVOKE", "DENY"]

/-- The keyword loop of `validateQuery`: first blocked keyword occurring in
`s` as a whole word, scanning the list in order. -/
def findDangerousKeyword (s : List Char) : List String → Option String
  | [] => none
  | kw :: rest =>
      if containsWord kw.data s then some kw else findDangerousKeyword s rest

/-- One `{pattern, error}` entry of `dangerousPatterns`. -/
structure QPattern where
  pats : List Pat
  error : String
deriving DecidableEq, Repr

/-- `dangerousPatterns` of `validateQuery`, in source order. -/
def dangerousPatterns : List QPattern :=
  [⟨[Pat.lit ";", Pat.ws0, Pat.lit "SELECT"], "Stacked queries are not allowed"⟩,
   ⟨[Pat.lit "--"], "SQL comments (--) are not allowed"⟩,
   ⟨[Pat.lit "/*"], "Multi-line comments are not allowed"⟩,
   ⟨[Pat.lit "UNION", Pat.ws1, Pat.lit "ALL", Pat.ws1, Pat.lit "SELECT"], "UNION ALL injection detected"⟩,
   ⟨[Pat.lit "UNION", Pat.ws1, Pat.lit "SELECT"], "UNION injection detected"⟩,
   ⟨[Pat.lit "INTO", Pat.ws1, Pat.lit "OUTFILE"], "File operations are not allowed"⟩,
   ⟨[Pat.lit "INTO", Pat.ws1, Pat.lit "DUMPFILE"], "File operations are not allowed"⟩,
   ⟨[Pat.lit "LOAD_FILE"], "File operations are not allowed"⟩]

/-- The pattern loop of `validateQuery`: error of the first dangerous
pattern that matches `s`. -/
def findDangerousPattern (s : List Char) : List QPattern → Option String
  | [] => none
  | p :: rest =>
      if containsPat p.pats s then some p.error else findDangerousPattern s rest

/-- `validateQuery` of `src/middleware/validator.js`: SELECT-only check,
then the keyword blocklist, then the dangerous patterns, short-circuiting
on the first failure. -/
def validateQuery (query : String) : ValidationResult :=
  if query = "" then .invalid "Query is required and must be a string"
  else if !("SELECT".data.isPrefixOf (toUpperL (trimJS query.data))) then
    .invalid "Only SELECT queries are allowed"
  else
    match findDangerousKeyword query.data dangerousKeywords with
    | some kw => .invalid ("Dangerous keyword detected: " ++ kw)
    | none =>
        match findDangerousPattern query.data dangerousPatterns with
        | some e => .invalid e
        | none => .valid

/-- First character class of the identifier regexes: `[a-zA-Z_]`. -/
def isIdentLead (c : Char) : Bool := c.isAlpha || c == '_'

/-- Rest class of the table-name regex: `[a-zA-Z0-9_\s]`. -/
def isTableRest (c : Char) : Bool := c.isAlpha || c.isDigit || c == '_' || isSpaceJS c

/-- Rest class of the database-name regex: `[a-zA-Z0-9_-]`. -/
def isDbRest (c : Char) : Bool := c.isAlpha || c.isDigit || c == '_' || c == '-'

/-- Rest class of the stored-procedure-name regex: `[a-zA-Z0-9_]`. -/
def isProcRest (c : Char) : Bool := c.isAlpha || c.isDigit || c == '_'

/-- `validateTableName`: non-empty and matching `[a-zA-Z_][a-zA-Z0-9_\s]*`
anchored at both ends. -/
def validateTableName (tableName : String) : ValidationResult :=
  if tableName = "" then .invalid "Table name is required"
  else
    match tableName.data with
    | [] => .invalid "Invalid table name format"
    | c :: cs =>
        if isIdentLead c && cs.all isTableRest then .valid
        else .invalid "Invalid table name format"

/-- `validateDatabaseName`: non-empty and matching `[a-zA-Z_][a-zA-Z0-9_-]*`
anchored at both ends. -/
def validateDatabaseName (databaseName : String) : ValidationResult :=
  if databaseName = "" then .invalid "Database name is required"
  else
    match databaseName.data with
    | [] => .invalid "Invalid database name format"
    | c :: cs =>
        if isIdentLead c && cs.all isDbRest then .valid
        else .invalid "Invalid database name format"

/-- `validateStoredProcedureName`: non-empty and matching
`[a-zA-Z_][a-zA-Z0-9_]{0,127}` anchored at both ends. -/
def validateStoredProcedureName (name : String) : ValidationResult :=
  if name = "" then .invalid "Stored procedure name is required"
  else
    match name.data with
    | [] => .invalid "Invalid stored procedure name format"
    | c :: cs =>
        if isIdentLead c && cs.all isProcRest && cs.length ≤ 127 then .valid
        else .invalid "Invalid stored procedure name format"

/-- JS `String.prototype.split(',')` on a character list. -/
def splitOnComma : List Char → List (List Char)
  | [] => [[]]
  | c :: cs =>
      if c = ',' then [] :: splitOnComma cs
      else
        match splitOnComma cs with
        | [] => [[c]]
        | r :: rs => (c :: r) :: rs

/-- The comma entries of the `ALLOWED_DATABASES` environment variable
(`none`/empty = unset or empty, both falsy in JS, giving no entries). -/
def configEntries : Option String → List String
  | none => []
  | some s =>
      if s = "" then [] else (splitOnComma s.data).map fun l => (⟨l⟩ : String)

/-- `allowedDatabases` of `src/db-connector.js`: each config entry trimmed
and lower-cased, built once at startup. -/
def buildWhitelist (cfg : Option String) : List String :=
  (configEntries cfg).map fun db => toLowerS (trimString db)

/-- `validateDatabase` of `src/db-connector.js`.  The JS function throws an
`Error` on failure; a thrown error is modelled as `Except.error` carrying
the error message, falling through as `Except.ok`. -/
def validateDatabase (allowedDatabases : List String) (database : String) :
    Except String Unit :=
  if allowedDatabases = [] then
    Except.error "No databases are configured in the whitelist"
  else if !(allowedDatabases.contains (toLowerS database)) then
    Except.error ("Database '" ++ database ++ "' is not allowed. Allowed databases: "
      ++ String.intercalate ", " allowedDatabases)
  else
    Except.ok ()

/-- `query.toUpperCase().includes('TOP ')`, the presence test the ad-hoc
handler uses for an existing row-limiting clause. -/
def includesTOPSpace (query : String) : Bool :=
  containsSub "TOP ".data (toUpperL query.data)

/-- The `limited` field of the ad-hoc handler's response:
`!query.toUpperCase().includes('TOP ')`, computed on the original query. -/
def limitedFlag (query : String) : Bool := !(includesTOPSpace query)

/-- JS `String.prototype.replace` with a non-global case-insensitive
literal regex: replace the first case-insensitive occurrence of `pat`
(unchanged when there is none). -/
def replaceFirstCI (pat repl : List Char) : List Char → List Char
  | [] => []
  | c :: cs =>
      if isPrefixCI pat (c :: cs) then repl ++ (c :: cs).drop pat.length
      else c :: replaceFirstCI pat repl cs

/-- The row-cap rewrite of the ad-hoc handler (`src/routes/query.js`):
`query.replace(/SELECT/i, 'SELECT TOP 1000')` unless the upper-cased query
already contains `TOP `. -/
def capRowCount (query : String) : String :=
  if !(includesTOPSpace query) then
    ⟨replaceFirstCI "SELECT".data "SELECT TOP 1000".data query.data⟩
  else query

/-- Insert `ins` immediately after the first case-insensitive occurrence of
`pat`, keeping the matched text itself. -/
def insertAfterFirstCI (pat ins : List Char) : List Char → List Char
  | [] => []
  | c :: cs =>
      if isPrefixCI pat (c :: cs) then
        (c :: cs).take pat.length ++ ins ++ (c :: cs).drop pat.length
      else c :: insertAfterFirstCI pat ins cs

/-- Modelled from the spec's words (for comparison with `capRowCount`, which
is the source's rewrite): "the cap inserted immediately after the first
SELECT keyword (case-insensitive, first occurrence only), leaving the rest
of the original string intact". -/
def capInsertSpec (query : String) : String :=
  if !(includesTOPSpace query) then
    ⟨insertAfterFirstCI "SELECT".data " TOP 1000".data query.data⟩
  else query

/-- The checks a request handler performs, in the order it performs them. -/
inductive Step where
  | dbNameValidated
  | tableNameValidated
  | statementValidated
  | dbAuthorized
  | executed
deriving DecidableEq, Repr

/-- The HTTP responses the handlers produce (success payloads reduced to
the statement handed to the database client). -/
inductive HandlerResponse where
  | badRequest (error : String)
  | forbidden (error : String)
  | serverError (error : String)
  | okQuery (finalQuery : String) (limited : Bool)
  | okData (finalQuery : String) (limit : Int)
deriving DecidableEq, Repr

/-- The catch block of every route handler: status 403 when the thrown
message contains `not allowed`, 500 otherwise. -/
def catchError (e : String) : HandlerResponse :=
  if containsSub "not allowed".data e.data then .forbidden e else .serverError e

/-- The POST /databases/:database/query handler (`src/routes/query.js`),
with the trace of checks it ran: database-name validation, then
`validateQuery`, then the TOP-1000 rewrite, then `executeQuery` — whose
first action is the `validateDatabase` whitelist check — and only then
execution of the final statement. -/
def adHocQueryHandler (allowedDatabases : List String) (database query : String) :
    List Step × HandlerResponse :=
  match validateDatabaseName database with
  | .invalid e => ([Step.dbNameValidated], .badRequest e)
  | .valid =>
      match validateQuery query with
      | .invalid e => ([Step.dbNameValidated, Step.statementValidated], .badRequest e)
      | .valid =>
          let finalQuery := capRowCount query
          match validateDatabase allowedDatabases database with
          | .error e =>
              ([Step.dbNameValidated, Step.statementValidated, Step.dbAuthorized],
               catchError e)
          | .ok _ =>
              ([Step.dbNameValidated, Step.statementValidated, Step.dbAuthorized,
                Step.executed],
               .okQuery finalQuery (limitedFlag query))

/-- `parseInt(limit) || 1000`: the parsed value, with `NaN` (`none`) and `0`
both falsy and replaced by 1000. -/
def parseIntOr1000 : Option Int → Int
  | none => 1000
  | some k => if k = 0 then 1000 else k

/-- `Math.min(Math.max(1, parseInt(limit) || 1000), 1000)` of the
table-data handler. -/
def safeLimit (limit : Option Int) : Int :=
  min (max 1 (parseIntOr1000 limit)) 1000

/-- Character class of the column-projection filter: `[a-zA-Z0-9_,\s*]`. -/
def isColChar (c : Char) : Bool :=
  c.isAlpha || c.isDigit || c == '_' || c == ',' || isSpaceJS c || c == '*'

/-- The column-projection filter of the table-data handler: keep the
caller's `columns` only when it differs from `*` and matches
`[a-zA-Z0-9_,\s*]+` anchored at both ends; otherwise fall back to `*`.
(When `columns` is exactly `*` the handler keeps the initial `*`.) -/
def safeColumns (columns : String) : String :=
  if columns = "*" then "*"
  else if !columns.data.isEmpty && columns.data.all isColChar then columns
  else "*"

/-- The POST /databases/:database/tables/:table/data handler
(`src/routes/query.js`): database-name and table-name validation, limit
clamping, column filtering, then `executeQuery` of the built
`SELECT TOP <n> <columns> FROM [<table>]` statement. -/
def tableDataHandler (allowedDatabases : List String) (database table : String)
    (limit : Option Int) (columns : String) : List Step × HandlerResponse :=
  match validateDatabaseName database with
  | .invalid e => ([Step.dbNameValidated], .badRequest e)
  | .valid =>
      match validateTableName table with
      | .invalid e => ([Step.dbNameValidated, Step.tableNameValidated], .badRequest e)
      | .valid =>
          let query := "SELECT TOP " ++ toString (safeLimit limit) ++ " "
            ++ safeColumns columns ++ " FROM [" ++ table ++ "]"
          match validateDatabase allowedDatabases database with
          | .error e =>
              ([Step.dbNameValidated, Step.tableNameValidated, Step.dbAuthorized],
               catchError e)
          | .ok _ =>
              ([Step.dbNameValidated, Step.tableNameValidated, Step.dbAuthorized,
                Step.executed],
               .okData query (safeLimit limit))

/-! ## Helper lemmas -/

/-- If some keyword of the list occurs in `s` as a whole word, the keyword
scan finds one. -/
theorem findDangerousKeyword_isSome (s : List Char) (kws : List String) (kw : String)
    (hmem : kw ∈ kws) (hcw : containsWord kw.data s = true) :
    (findDangerousKeyword s kws).isSome = true := by
  induction kws with
  | nil => cases hmem
  | cons k rest ih =>
      unfold findDangerousKeyword
      cases hk : containsWord k.data s with
      | true => simp [hk]
      | false =>
          rcases List.mem_cons.mp hmem with h | h
          · subst h
            rw [hk] at hcw
            cases hcw
          · simp only [hk, Bool.false_eq_true, if_false]
            exact ih h

/-- A character accepted by any of the identifier character classes is
neither a quote, a semicolon nor a square bracket. -/
def safeIdentChar (c : Char) : Bool :=
  !(c == '\'' || c == ';' || c == '[' || c == ']')

/-- The accepted identifier alphabet (letters, digits, underscore, hyphen,
whitespace) contains no quote, semicolon or square bracket. -/
theorem safeIdentChar_of_class (c : Char)
    (h : (c.isAlpha || c.isDigit || c == '_' || c == '-' || isSpaceJS c) = true) :
    safeIdentChar c = true := by
  by_cases h1 : c = '\''
  · subst h1; exact absurd h (by decide)
  by_cases h2 : c = ';'
  · subst h2; exact absurd h (by decide)
  by_cases h3 : c = '['
  · subst h3; exact absurd h (by decide)
  by_cases h4 : c = ']'
  · subst h4; exact absurd h (by decide)
  unfold safeIdentChar
  rw [beq_eq_false_iff_ne.mpr h1, beq_eq_false_iff_ne.mpr h2,
      beq_eq_false_iff_ne.mpr h3, beq_eq_false_iff_ne.mpr h4]
  rfl

theorem safeIdentChar_of_lead (c : Char) (h : isIdentLead c = true) :
    safeIdentChar c = true := by
  apply safeIdentChar_of_class
  unfold isIdentLead at h
  simp only [Bool.or_eq_true] at h
  rcases h with h' | h' <;> simp [h']

theorem safeIdentChar_of_tableRest (c : Char) (h : isTableRest c = true) :
    safeIdentChar c = true := by
  apply safeIdentChar_of_class
  unfold isTableRest at h
  simp only [Bool.or_eq_true] at h
  rcases h with ((h' | h') | h') | h' <;> simp [h']

theorem safeIdentChar_of_procRest (c : Char) (h : isProcRest c = true) :
    safeIdentChar c = true := by
  apply safeIdentChar_of_class
  unfold isProcRest at h
  simp only [Bool.or_eq_true] at h
  rcases h with (h' | h') | h' <;> simp [h']

/-- Matching a pattern against itself (plus anything) succeeds. -/
theorem isPrefixCI_self_append (pat suf : List Char) :
    isPrefixCI pat (pat ++ suf) = true := by
  induction pat with
  | nil => rfl
  | cons k ks ih =>
      simp only [List.cons_append]
      unfold isPrefixCI
      rw [ih]
      simp

/-- Replacing the first occurrence when the string starts with the pattern. -/
theorem replaceFirstCI_append_self (pat repl suf : List Char) (hne : pat ≠ []) :
    replaceFirstCI pat repl (pat ++ suf) = repl ++ suf := by
  cases pat with
  | nil => exact absurd rfl hne
  | cons k ks =>
      have hpre := isPrefixCI_self_append (k :: ks) suf
      simp only [List.cons_append] at hpre ⊢
      unfold replaceFirstCI
      rw [hpre]
      simp only [if_true]
      congr 1
      exact List.drop_left (k :: ks) suf

/-- Unfolding equation of `replaceFirstCI` on a non-empty string. -/
theorem replaceFirstCI_cons (pat repl : List Char) (c : Char) (cs : List Char) :
    replaceFirstCI pat repl (c :: cs)
      = if isPrefixCI pat (c :: cs) then repl ++ (c :: cs).drop pat.length
        else c :: replaceFirstCI pat repl cs := rfl

/-- The head of `SELECT` never matches a whitespace character. -/
theorem selectHead_ne_space (c : Char) (h : isSpaceJS c = true) :
    (('S' : Char).toUpper == c.toUpper) = false := by
  unfold isSpaceJS at h
  simp only [Bool.or_eq_true, beq_iff_eq] at h
  rcases h with ((((h | h) | h) | h) | h) | h <;> subst h <;> decide

/-- `replace(/SELECT/i, repl)` on leading whitespace followed by the
literal `SELECT`: the whitespace is kept and the keyword is replaced. -/
theorem replaceFirstCI_after_spaces (repl pre suf : List Char)
    (hpre : pre.all isSpaceJS = true) :
    replaceFirstCI "SELECT".data repl (pre ++ ("SELECT".data ++ suf))
      = pre ++ (repl ++ suf) := by
  induction pre with
  | nil =>
      simp only [List.nil_append]
      exact replaceFirstCI_append_self _ _ _ (by decide)
  | cons c cs ih =>
      simp only [List.all_cons, Bool.and_eq_true] at hpre
      have hfail : isPrefixCI "SELECT".data (c :: (cs ++ ("SELECT".data ++ suf))) = false := by
        have hstep : isPrefixCI "SELECT".data (c :: (cs ++ ("SELECT".data ++ suf)))
            = ((('S' : Char).toUpper == c.toUpper)
                && isPrefixCI "ELECT".data (cs ++ ("SELECT".data ++ suf))) := rfl
        rw [hstep, selectHead_ne_space c hpre.1]
        rfl
      show replaceFirstCI "SELECT".data repl (c :: (cs ++ ("SELECT".data ++ suf)))
        = c :: (cs ++ (repl ++ suf))
      rw [replaceFirstCI_cons, hfail]
      simp only [Bool.false_eq_true, if_false]
      rw [ih hpre.2]

/-! ## Claims -/

/-- C1 (counterexample): an unauthorized database does NOT short-circuit
before the SQL is inspected.  With whitelist `["sales"]`, target database
`reporting` (unauthorized — first conjunct) and the non-SELECT statement
`DELETE FROM Orders`, the ad-hoc handler answers with the
statement-classification error and its trace shows the statement was
classified while the whitelist check never ran. -/
theorem c1_counterexample :
    (MSSQLGateway.validateDatabase ["sales"] "reporting").isOk = false
    ∧ MSSQLGateway.adHocQueryHandler ["sales"] "reporting" "DELETE FROM Orders"
        = ([MSSQLGateway.Step.dbNameValidated, MSSQLGateway.Step.statementValidated],
           MSSQLGateway.HandlerResponse.badRequest "Only SELECT queries are allowed") :=
  ⟨rfl, rfl⟩

/-- C1 (amended): the ad-hoc request pipeline runs in the order
RECEIVED → IDENTIFIERS_VALID → STATEMENT_VALID → DB_AUTHORIZED →
EXECUTED/FAILED — database-name validation first, then statement
classification, and the database-whitelist authorization last, inside the
execution call, terminal on first failure; the statement is executed only
when the whitelist check succeeded. -/
theorem c1_pipeline_order (wl : List String) (database query : String) :
    ((MSSQLGateway.adHocQueryHandler wl database query).1
        = [MSSQLGateway.Step.dbNameValidated]
      ∨ (MSSQLGateway.adHocQueryHandler wl database query).1
          = [MSSQLGateway.Step.dbNameValidated, MSSQLGateway.Step.statementValidated]
      ∨ (MSSQLGateway.adHocQueryHandler wl database query).1
          = [MSSQLGateway.Step.dbNameValidated, MSSQLGateway.Step.statementValidated,
             MSSQLGateway.Step.dbAuthorized]
      ∨ (MSSQLGateway.adHocQueryHandler wl database query).1
          = [MSSQLGateway.Step.dbNameValidated, MSSQLGateway.Step.statementValidated,
             MSSQLGateway.Step.dbAuthorized, MSSQLGateway.Step.executed])
    ∧ (MSSQLGateway.Step.executed ∈ (MSSQLGateway.adHocQueryHandler wl database query).1 →
        MSSQLGateway.validateDatabase wl database = Except.ok ()) := by
  unfold MSSQLGateway.adHocQueryHandler
  cases MSSQLGateway.validateDatabaseName database with
  | invalid e => exact ⟨Or.inl rfl, by intro h; simp at h⟩
  | valid =>
      cases MSSQLGateway.validateQuery query with
      | invalid e => exact ⟨Or.inr (Or.inl rfl), by intro h; simp at h⟩
      | valid =>
          cases hE : MSSQLGateway.validateDatabase wl database with
          | error e =>
              refine ⟨Or.inr (Or.inr (Or.inl rfl)), ?_⟩
              intro h
              simp at h
          | ok u =>
              cases u
              exact ⟨Or.inr (Or.inr (Or.inr rfl)), fun _ => rfl⟩

/-- C1 amended-theorem witness: on the authorized concrete request
(whitelist `["sales"]`, database `sales`, query `SELECT 1`) the pipeline
reaches execution, so the order theorem yields that the whitelist check
succeeded. -/
theorem c1_pipeline_order_witness :
    MSSQLGateway.validateDatabase ["sales"] "sales" = Except.ok () :=
  (c1_pipeline_order ["sales"] "sales" "SELECT 1").2 (by decide)

/-- C3 (counterexample): the database-authorization check does not return a
tagged `ValidationResult` — `validateDatabase` raises its outcome as a
thrown `Error` (modelled `Except.error`), here at the concrete unauthorized
input `reporting` against whitelist `["sales"]`. -/
theorem c3_counterexample :
    MSSQLGateway.validateDatabase ["sales"] "reporting"
      = Except.error "Database 'reporting' is not allowed. Allowed databases: sales" := rfl

/-- C5 (counterexample): the rewrite is not insertion after the first
SELECT keyword.  The accepted statement `select * from t` (lower-case
keyword, no `TOP `) is rewritten by the code to
`SELECT TOP 1000 * from t`, whereas inserting the cap immediately after
the keyword while leaving the rest of the original string intact would
give `select TOP 1000 * from t`. -/
theorem c5_counterexample :
    MSSQLGateway.validateQuery "select * from t" = MSSQLGateway.ValidationResult.valid
    ∧ MSSQLGateway.capRowCount "select * from t" = "SELECT TOP 1000 * from t"
    ∧ MSSQLGateway.capInsertSpec "select * from t" = "select TOP 1000 * from t"
    ∧ MSSQLGateway.capRowCount "select * from t"
        ≠ MSSQLGateway.capInsertSpec "select * from t" := by
  refine ⟨rfl, rfl, rfl, ?_⟩
  decide

/-- C6 (counterexample): the stacked query `SELECT * FROM Orders; DROP
TABLE Orders` is rejected, but with the keyword-blocklist reason for
`DROP`, not a reason identifying the stacked-query pattern (whose reason
in the source is `Stacked queries are not allowed`). -/
theorem c6_counterexample :
    MSSQLGateway.validateQuery "SELECT * FROM Orders; DROP TABLE Orders"
      = MSSQLGateway.ValidationResult.invalid "Dangerous keyword detected: DROP"
    ∧ MSSQLGateway.validateQuery "SELECT * FROM Orders; DROP TABLE Orders"
        ≠ MSSQLGateway.ValidationResult.invalid "Stacked queries are not allowed" := by
  refine ⟨rfl, ?_⟩
  decide

/-- C8: the row-cap rewrite is idempotent on statements that already
contain the row-limiting token `TOP ` (upper-cased): such a statement is
left untouched, so rewriting twice equals rewriting once. -/
theorem c8_cap_idempotent (query : String)
    (h : MSSQLGateway.includesTOPSpace query = true) :
    MSSQLGateway.capRowCount (MSSQLGateway.capRowCount query)
      = MSSQLGateway.capRowCount query := by
  have h1 : MSSQLGateway.capRowCount query = query := by
    unfold MSSQLGateway.capRowCount
    rw [h]
    rfl
  rw [h1]
  exact h1

/-- C8 witness: the idempotence theorem applied to the concrete statement
`SELECT TOP 5 * FROM t`, which contains a limiting clause. -/
theorem c8_cap_idempotent_witness :
    MSSQLGateway.includesTOPSpace "SELECT TOP 5 * FROM t" = true
    ∧ MSSQLGateway.capRowCount (MSSQLGateway.capRowCount "SELECT TOP 5 * FROM t")
        = MSSQLGateway.capRowCount "SELECT TOP 5 * FROM t" :=
  ⟨by decide, c8_cap_idempotent "SELECT TOP 5 * FROM t" (by decide)⟩

/-- C10: the limiting-clause presence test is a plain substring search for
`TOP `, so the accepted statement `SELECT * FROM STOP STATION` — which
contains no `TOP` as a whole word, hence no limiting clause, but contains
the substring `TOP ` inside `STOP STATION` — is classified valid, sent to
the database client unrewritten, and reported as not limited
(`limited = false`). -/
theorem c10_top_substring_false_positive :
    MSSQLGateway.validateQuery "SELECT * FROM STOP STATION"
      = MSSQLGateway.ValidationResult.valid
    ∧ MSSQLGateway.containsWord "TOP".data ("SELECT * FROM STOP STATION").data = false
    ∧ MSSQLGateway.includesTOPSpace "SELECT * FROM STOP STATION" = true
    ∧ MSSQLGateway.capRowCount "SELECT * FROM STOP STATION" = "SELECT * FROM STOP STATION"
    ∧ MSSQLGateway.adHocQueryHandler ["db1"] "db1" "SELECT * FROM STOP STATION"
        = ([MSSQLGateway.Step.dbNameValidated, MSSQLGateway.Step.statementValidated,
            MSSQLGateway.Step.dbAuthorized, MSSQLGateway.Step.executed],
           MSSQLGateway.HandlerResponse.okQuery "SELECT * FROM STOP STATION" false) :=
  ⟨rfl, by decide, rfl, rfl, rfl⟩

/-- Any whole-word occurrence of a blocked keyword makes `validateQuery`
reject (through the SELECT-only check when the statement does not start
with SELECT, and through the keyword loop otherwise). -/
theorem validateQuery_invalid_of_keyword (query kw : String)
    (hmem : kw ∈ dangerousKeywords) (hcw : containsWord kw.data query.data = true) :
    (validateQuery query).isValid = false := by
  unfold validateQuery
  by_cases hq : query = ""
  · subst hq
    simp [containsWord, containsWordAux] at hcw
  · rw [if_neg hq]
    cases hs : ("SELECT".data.isPrefixOf (toUpperL (trimJS query.data))) with
    | false => rfl
    | true =>
        simp only [Bool.not_true, Bool.false_eq_true, if_false]
        have hsome := findDangerousKeyword_isSome query.data dangerousKeywords kw hmem hcw
        cases hfd : findDangerousKeyword query.data dangerousKeywords with
        | none => rw [hfd] at hsome; cases hsome
        | some e => rfl

/-- C2: any statement containing a blocked keyword as a whole word
(case-insensitively, per the word-boundary regex) is classified invalid;
`InSeRt` in mixed case is caught; a keyword that is a strict substring of a
longer identifier (`INSERTED_AT`) is not rejected; and `SP_` and `XP_` are
members of the blocklist (its execution/extended-procedure prefix
entries). -/
theorem c2_keyword_blocklist :
    (∀ (query kw : String), kw ∈ dangerousKeywords →
        containsWord kw.data query.data = true →
        (validateQuery query).isValid = false)
    ∧ (validateQuery "SELECT a FROM t WHERE InSeRt = 1").isValid = false
    ∧ (validateQuery "SELECT INSERTED_AT FROM T").isValid = true
    ∧ "SP_" ∈ dangerousKeywords ∧ "XP_" ∈ dangerousKeywords :=
  ⟨fun query kw hmem hcw => validateQuery_invalid_of_keyword query kw hmem hcw,
   rfl, rfl, by decide, by decide⟩

/-- C2 witness: the blocklist theorem applied to the concrete statement
`SELECT * FROM t WHERE x = drop`, which contains `DROP` as a whole word. -/
theorem c2_keyword_blocklist_witness :
    ("DROP" ∈ dangerousKeywords
      ∧ containsWord "DROP".data ("SELECT * FROM t WHERE x = drop").data = true)
    ∧ (validateQuery "SELECT * FROM t WHERE x = drop").isValid = false :=
  ⟨⟨by decide, by decide⟩,
   c2_keyword_blocklist.1 "SELECT * FROM t WHERE x = drop" "DROP" (by decide) (by decide)⟩

/-- C3 (amended): the per-statement validators return tagged
`ValidationResult`s on which callers branch, but the database-whitelist
authorization signals failure by throwing an `Error` (modelled
`Except.error`), which the route handler catches and maps to an HTTP error
response. -/
theorem c3_validation_mechanisms :
    (∀ query : String, validateQuery query = ValidationResult.valid
        ∨ ∃ e, validateQuery query = ValidationResult.invalid e)
    ∧ (∀ (wl : List String) (db : String),
        (validateDatabase wl db).isOk = false →
        ∃ e, validateDatabase wl db = Except.error e)
    ∧ (∀ (wl : List String) (db query e : String),
        validateDatabase wl db = Except.error e →
        validateDatabaseName db = ValidationResult.valid →
        validateQuery query = ValidationResult.valid →
        (adHocQueryHandler wl db query).2 = catchError e) := by
  refine ⟨?_, ?_, ?_⟩
  · intro query
    cases h : validateQuery query with
    | valid => exact Or.inl rfl
    | invalid e => exact Or.inr ⟨e, rfl⟩
  · intro wl db h
    cases hv : validateDatabase wl db with
    | error e => exact ⟨e, rfl⟩
    | ok u => rw [hv] at h; cases h
  · intro wl db query e hv hdb hq
    unfold adHocQueryHandler
    rw [hdb, hq, hv]

/-- C3 amended-theorem witness: with an empty whitelist, the authorization
check for the concrete database `anydb` throws (yields `Except.error`). -/
theorem c3_validation_mechanisms_witness :
    ∃ e, validateDatabase [] "anydb" = Except.error e :=
  c3_validation_mechanisms.2.1 [] "anydb" (by decide)

/-- C4: against the whitelist built from configuration (entries trimmed and
lower-cased at startup), authorization accepts exactly the databases whose
lower-cased name equals some entry's trimmed lower-cased form — i.e.
case-insensitive membership — and an empty whitelist rejects every input
with the distinct reason that no databases are configured. -/
theorem c4_whitelist_membership (cfg : Option String) (database : String) :
    (buildWhitelist cfg = [] →
      validateDatabase (buildWhitelist cfg) database
        = Except.error "No databases are configured in the whitelist")
    ∧ (buildWhitelist cfg ≠ [] →
      (validateDatabase (buildWhitelist cfg) database = Except.ok ()
        ↔ ∃ e ∈ configEntries cfg, toLowerS (trimString e) = toLowerS database)) := by
  constructor
  · intro h
    unfold validateDatabase
    rw [if_pos h]
  · intro h
    unfold validateDatabase
    rw [if_neg h]
    constructor
    · intro hok
      cases hc : (buildWhitelist cfg).contains (toLowerS database) with
      | false => rw [hc] at hok; cases hok
      | true =>
          have hmem : toLowerS database ∈ buildWhitelist cfg := by
            simpa using hc
          unfold buildWhitelist at hmem
          rcases List.mem_map.mp hmem with ⟨e, he, hfe⟩
          exact ⟨e, he, hfe⟩
    · rintro ⟨e, he, hfe⟩
      have hmem : toLowerS database ∈ buildWhitelist cfg := by
        unfold buildWhitelist
        exact List.mem_map.mpr ⟨e, he, hfe⟩
      have hc : (buildWhitelist cfg).contains (toLowerS database) = true := by
        simpa using hmem
      rw [hc]
      rfl

/-- C4 witness: the membership theorem applied to the configuration
`Sales, Reports` (whitelist `["sales", "reports"]`) and the differently
cased request target `SALES`, which is authorized. -/
theorem c4_whitelist_membership_witness :
    validateDatabase (buildWhitelist (some "Sales, Reports")) "SALES" = Except.ok () :=
  ((c4_whitelist_membership (some "Sales, Reports") "SALES").2 (by decide)).mpr
    ⟨"Sales", by decide, by decide⟩

/-- C5 (amended): for an accepted statement that is optional leading
whitespace, the SELECT keyword written in upper case, and a remainder —
and whose upper-cased text does not contain `TOP ` — the rewrite replaces
that first SELECT with `SELECT TOP 1000`, keeping the leading whitespace
and the remainder intact, and the response reports the cap as applied;
when the keyword is written in lower or mixed case it is canonicalised to
upper case by the replacement rather than kept (so the rewrite is a
replacement, not an insertion). -/
theorem c5_cap_rewrite (pre suf : List Char)
    (hpre : pre.all isSpaceJS = true)
    (htop : includesTOPSpace ⟨pre ++ ("SELECT".data ++ suf)⟩ = false) :
    capRowCount ⟨pre ++ ("SELECT".data ++ suf)⟩
      = ⟨pre ++ ("SELECT TOP 1000".data ++ suf)⟩
    ∧ limitedFlag ⟨pre ++ ("SELECT".data ++ suf)⟩ = true := by
  constructor
  · unfold capRowCount
    rw [htop]
    simp only [Bool.not_false, if_true]
    congr 1
    exact replaceFirstCI_after_spaces "SELECT TOP 1000".data pre suf hpre
  · unfold limitedFlag
    rw [htop]
    rfl

/-- C5 amended-theorem witness: the rewrite theorem applied to the
scenario statement `SELECT * FROM Orders`, rewritten to
`SELECT TOP 1000 * FROM Orders` with the cap reported as applied. -/
theorem c5_cap_rewrite_witness :
    capRowCount "SELECT * FROM Orders" = "SELECT TOP 1000 * FROM Orders"
    ∧ limitedFlag "SELECT * FROM Orders" = true := by
  have hq : ("SELECT * FROM Orders" : String)
      = ⟨[] ++ ("SELECT".data ++ " * FROM Orders".data)⟩ := by decide
  have hr : ("SELECT TOP 1000 * FROM Orders" : String)
      = ⟨[] ++ ("SELECT TOP 1000".data ++ " * FROM Orders".data)⟩ := by decide
  rw [hq, hr]
  exact c5_cap_rewrite [] (" * FROM Orders".data) (by decide) (by decide)

/-- C6 (amended): the stacked query `SELECT * FROM Orders; DROP TABLE
Orders` is rejected as an invalid statement — with the keyword-blocklist
reason `Dangerous keyword detected: DROP`, since the keyword loop fires
before the stacked-query pattern check — and is never handed to the
database client, whatever the whitelist and target database. -/
theorem c6_stacked_query_rejected (wl : List String) (db : String) :
    Step.executed ∉ (adHocQueryHandler wl db "SELECT * FROM Orders; DROP TABLE Orders").1
    ∧ adHocQueryHandler wl "mydb" "SELECT * FROM Orders; DROP TABLE Orders"
        = ([Step.dbNameValidated, Step.statementValidated],
           HandlerResponse.badRequest "Dangerous keyword detected: DROP") := by
  constructor
  · unfold adHocQueryHandler
    cases validateDatabaseName db with
    | invalid e =>
        intro h
        exact absurd (List.mem_singleton.mp h) (by decide)
    | valid =>
        rw [show validateQuery "SELECT * FROM Orders; DROP TABLE Orders"
              = ValidationResult.invalid "Dangerous keyword detected: DROP" from rfl]
        intro h
        rcases List.mem_cons.mp h with h' | h'
        · exact absurd h' (by decide)
        · exact absurd (List.mem_singleton.mp h') (by decide)
  · rfl

/-- C6 amended-theorem witness: the rejection theorem applied at the
concrete whitelist `["sales"]` and target `mydb`. -/
theorem c6_stacked_query_rejected_witness :
    adHocQueryHandler ["sales"] "mydb" "SELECT * FROM Orders; DROP TABLE Orders"
      = ([Step.dbNameValidated, Step.statementValidated],
         HandlerResponse.badRequest "Dangerous keyword detected: DROP") :=
  (c6_stacked_query_rejected ["sales"] "mydb").2

/-- C7: the table-data fetch clamps the effective row limit into [1, 1000]
for every parsed caller value (`none` models `parseInt` returning `NaN`),
uses the caller's columns string verbatim exactly when it is non-empty and
matches `[a-zA-Z0-9_,\s*]+`, and silently falls back to `*` otherwise; in
particular `name; DROP TABLE x` falls back to `*` while the request
proceeds to execution. -/
theorem c7_limit_clamp_and_projection :
    (∀ limit : Option Int, 1 ≤ safeLimit limit ∧ safeLimit limit ≤ 1000)
    ∧ (∀ columns : String,
        safeColumns columns
          = if !columns.data.isEmpty && columns.data.all isColChar
            then columns else "*")
    ∧ safeColumns "name; DROP TABLE x" = "*"
    ∧ tableDataHandler ["sales"] "sales" "Orders" (some 50) "name; DROP TABLE x"
        = ([Step.dbNameValidated, Step.tableNameValidated, Step.dbAuthorized,
            Step.executed],
           HandlerResponse.okData "SELECT TOP 50 * FROM [Orders]" 50) := by
  refine ⟨?_, ?_, rfl, rfl⟩
  · intro limit
    unfold safeLimit
    exact ⟨le_min (le_max_left 1 _) (by norm_num), min_le_right _ _⟩
  · intro columns
    unfold safeColumns
    by_cases h : columns = "*"
    · subst h; rfl
    · rw [if_neg h]

/-- C7 witness: the clamp theorem applied to the concrete caller limit
5000, which is clamped into the permitted range. -/
theorem c7_limit_clamp_and_projection_witness :
    1 ≤ safeLimit (some 5000) ∧ safeLimit (some 5000) ≤ 1000 :=
  c7_limit_clamp_and_projection.1 (some 5000)

/-- C9: every string accepted by the table-name validator or the
stored-procedure-name validator consists of characters that are neither a
single quote, a semicolon, nor a square bracket, so interpolating it into
a bracket-quoted `[x]` fragment or a single-quoted SQL literal cannot
terminate the quoting context. -/
theorem c9_identifier_interpolation_safe (s : String)
    (h : (validateTableName s).isValid = true
      ∨ (validateStoredProcedureName s).isValid = true) :
    s.data.all safeIdentChar = true := by
  rcases h with h | h
  · unfold validateTableName at h
    by_cases hq : s = ""
    · subst hq; rfl
    · rw [if_neg hq] at h
      cases hd : s.data with
      | nil => rfl
      | cons c cs =>
          rw [hd] at h
          have h' : (if (isIdentLead c && cs.all isTableRest) = true
              then ValidationResult.valid
              else ValidationResult.invalid "Invalid table name format").isValid = true := h
          cases hc : (isIdentLead c && cs.all isTableRest) with
          | false => rw [hc] at h'; cases h'
          | true =>
              simp only [Bool.and_eq_true] at hc
              rw [List.all_cons, Bool.and_eq_true]
              refine ⟨safeIdentChar_of_lead c hc.1, ?_⟩
              have hall := hc.2
              rw [List.all_eq_true] at hall ⊢
              intro x hx
              exact safeIdentChar_of_tableRest x (hall x hx)
  · unfold validateStoredProcedureName at h
    by_cases hq : s = ""
    · subst hq; rfl
    · rw [if_neg hq] at h
      cases hd : s.data with
      | nil => rfl
      | cons c cs =>
          rw [hd] at h
          have h' : (if (isIdentLead c && cs.all isProcRest && decide (cs.length ≤ 127)) = true
              then ValidationResult.valid
              else ValidationResult.invalid "Invalid stored procedure name format").isValid
                = true := h
          cases hc : (isIdentLead c && cs.all isProcRest && decide (cs.length ≤ 127)) with
          | false => rw [hc] at h'; cases h'
          | true =>
              simp only [Bool.and_eq_true] at hc
              rw [List.all_cons, Bool.and_eq_true]
              refine ⟨safeIdentChar_of_lead c hc.1.1, ?_⟩
              have hall := hc.1.2
              rw [List.all_eq_true] at hall ⊢
              intro x hx
              exact safeIdentChar_of_procRest x (hall x hx)

/-- C9 witness: the interpolation-safety theorem applied to the accepted
table name `Orders`. -/
theorem c9_identifier_interpolation_safe_witness :
    ("Orders" : String).data.all safeIdentChar = true :=
  c9_identifier_interpolation_safe "Orders" (Or.inl (by decide))

end MSSQLGateway
